import Mathlib

/-!
Shallow embedding of the stack-overflow guard subsystem in
`library/std/src/sys/pal/unix/stack_overflow.rs`.

OS calls (`mmap`, `mprotect`, `munmap`, `sigaltstack`, `sigaction`) are
modelled as events emitted into a trace; their results (addresses returned
by `mmap`, success/failure, the queried alternate-stack registration, the
thread-attribute values) are supplied as explicit inputs, so every function
of the source becomes a pure Lean function of its inputs.  Raw addresses and
sizes are `Nat` (the source works in `usize`; no arithmetic here can
overflow a 64-bit address space, and the source's comparisons are plain
unsigned comparisons).
-/

namespace StackOverflow

/-- Memory protection requested from the OS: `PROT_NONE` or
`PROT_READ | PROT_WRITE` (the only two combinations the source uses). -/
inductive Prot
  | protNone
  | protReadWrite
deriving DecidableEq, Repr

/-- `libc::stack_t`: an alternate-signal-stack registration. -/
structure StackT where
  ss_sp : Nat
  ss_flags : Nat
  ss_size : Nat
deriving DecidableEq, Repr

/-- `libc::SS_DISABLE`, a single flag bit. -/
def SS_DISABLE : Nat := 2

/-- Events recording the OS calls a function performs, in order. -/
inductive OsEvent
  | mmapAnon (len : Nat) (prot : Prot)
  | mmapFixed (addr len : Nat) (prot : Prot)
  | mprotectCall (addr len : Nat) (prot : Prot)
  | munmapCall (addr len : Nat)
  | sigaltstackSet (ss : StackT)
  | sigaltstackQuery
deriving DecidableEq, Repr

/-- `true` exactly when the event is a memory-mapping call. -/
def OsEvent.isMmap : OsEvent → Bool
  | .mmapAnon _ _ => true
  | .mmapFixed _ _ _ => true
  | _ => false

/-- Outcome of one invocation of the fault handler `signal_handler`:
either it prints the overflow diagnostic via `rtprintpanic!` and terminates
the process via `rtabort!` (never returning), or it re-registers `SIG_DFL`
for the delivered signal number via `sigaction` and returns. -/
inductive HandlerOutcome
  | overflowAbort (diagnostic : String) (abortMsg : String)
  | resetToDefault (signum : Nat)
deriving DecidableEq, Repr

/-- The diagnostic emitted when an overflow is detected:
`"\nthread '{}' has overflowed its stack\n"` with the current thread's
name, or `"<unknown>"` when the name is unavailable. -/
def overflowMessage (threadName : Option String) : String :=
  "\nthread \x27" ++ threadName.getD "<unknown>" ++ "\x27 has overflowed its stack\n"

/-- `signal_handler`: reads the per-thread guard range from `GUARD`
(parameter `guard`) and the faulting address from the OS fault info
(parameter `si_addr`).  If `start <= addr && addr < end` it prints the
diagnostic and aborts; otherwise it resets the delivered signal's
disposition to `SIG_DFL` and returns. -/
def signal_handler (signum : Nat) (guard : Nat × Nat) (threadName : Option String)
    (si_addr : Nat) : HandlerOutcome :=
  let start := guard.fst
  let stop := guard.snd
  if start ≤ si_addr ∧ si_addr < stop then
    .overflowAbort (overflowMessage threadName) "stack overflow"
  else
    .resetToDefault signum

/-- `true` exactly when the handler outcome is the stack-overflow abort. -/
def classifiesOverflow : HandlerOutcome → Bool
  | .overflowAbort _ _ => true
  | .resetToDefault _ => false

/-- The disposition of a signal as read back by `sigaction`: the platform
default `SIG_DFL`, this subsystem's `signal_handler` (installed with
`SA_SIGINFO | SA_ONSTACK`), or some other pre-existing handler. -/
inductive SigDisposition
  | dfl
  | installed
  | other (h : Nat)
deriving DecidableEq, Repr

/-- The process-wide state the installation loop of `init` touches: the
dispositions of `SIGSEGV` and `SIGBUS`, and `NEED_ALTSTACK`. -/
structure SigState where
  segv : SigDisposition
  bus : SigDisposition
  needAltstack : Bool
deriving DecidableEq, Repr

/-- One iteration of the loop in `init`: read the current disposition;
only if it is `SIG_DFL` install `signal_handler`.  Returns the new
disposition and whether an installation happened. -/
def installIfDefault (cur : SigDisposition) : SigDisposition × Bool :=
  if cur = .dfl then (.installed, true) else (cur, false)

/-- The `for &signal in &[SIGSEGV, SIGBUS]` loop of `init`: for each of
the two signals in order, install the handler if the current disposition
is the default, storing `true` into `NEED_ALTSTACK` whenever it installs. -/
def init_signals (st : SigState) : SigState :=
  let s1 := installIfDefault st.segv
  let st1 : SigState :=
    { segv := s1.fst, bus := st.bus,
      needAltstack := if s1.snd then true else st.needAltstack }
  let s2 := installIfDefault st1.bus
  { segv := st1.segv, bus := s2.fst,
    needAltstack := if s2.snd then true else st1.needAltstack }

/-- Result of `get_stack`: the `stack_t` it builds, or a panic (the source
panics with the OS error when `mmap` or `mprotect` fails). -/
inductive GetStackOutcome
  | ok (st : StackT)
  | panicked (msg : String)
deriving DecidableEq, Repr

/-- `get_stack`: maps `sigstack_size + page_size` bytes of anonymous,
private, read/write memory, `mprotect`s the first page to `PROT_NONE`,
and returns a `stack_t` whose `ss_sp` is the mapping's base plus one page
and whose `ss_size` is `sigstack_size`.  `mmapRes` is the address returned
by `mmap` (`none` models `MAP_FAILED`), `mprotectOk` whether `mprotect`
returned 0, and `osErr` the text of `io::Error::last_os_error()`. -/
def get_stack (sigstack_size page_size : Nat) (mmapRes : Option Nat)
    (mprotectOk : Bool) (osErr : String) : GetStackOutcome × List OsEvent :=
  match mmapRes with
  | none =>
      (.panicked ("failed to allocate an alternative stack: " ++ osErr),
       [.mmapAnon (sigstack_size + page_size) .protReadWrite])
  | some stackp =>
      if mprotectOk then
        (.ok { ss_sp := stackp + page_size, ss_flags := 0, ss_size := sigstack_size },
         [.mmapAnon (sigstack_size + page_size) .protReadWrite,
          .mprotectCall stackp page_size .protNone])
      else
        (.panicked ("failed to set up alternative stack guard page: " ++ osErr),
         [.mmapAnon (sigstack_size + page_size) .protReadWrite,
          .mprotectCall stackp page_size .protNone])

/-- The inputs `make_handler` consumes: the `NEED_ALTSTACK` flag, whether
this is the main thread, the result of `current_guard()` for a non-main
thread, the registration returned by the `sigaltstack` query, the
sigaltstack sizing constants, and the oracle for `get_stack`'s OS calls. -/
structure MakeHandlerEnv where
  needAltstack : Bool
  mainThread : Bool
  currentGuard : Option (Nat × Nat)
  queried : StackT
  sigstack_size : Nat
  page_size : Nat
  mmapRes : Option Nat
  mprotectOk : Bool
  osErr : String
deriving DecidableEq, Repr

/-- Result of `make_handler`: the returned `Handler`'s data pointer (0 is
`Handler::null()`), the value written to the thread-local `GUARD` (if
any), and the OS calls performed — or a propagated panic from
`get_stack`. -/
inductive MakeHandlerOutcome
  | ok (handlerData : Nat) (guardWrite : Option (Nat × Nat)) (events : List OsEvent)
  | panicked (msg : String) (events : List OsEvent)
deriving DecidableEq, Repr

/-- `make_handler`: returns the null handler immediately when
`NEED_ALTSTACK` is unset; otherwise (for a non-main thread) writes
`current_guard().unwrap_or(0..0)` to `GUARD`, queries the current
alternate-stack registration, and only when its flags contain
`SS_DISABLE` allocates a stack via `get_stack` and registers it. -/
def make_handler (env : MakeHandlerEnv) : MakeHandlerOutcome :=
  if env.needAltstack = false then
    .ok 0 none []
  else
    let guardWrite : Option (Nat × Nat) :=
      if env.mainThread then none else some (env.currentGuard.getD (0, 0))
    if env.queried.ss_flags.land SS_DISABLE ≠ 0 then
      match get_stack env.sigstack_size env.page_size env.mmapRes env.mprotectOk env.osErr with
      | (.ok st, evs) =>
          .ok st.ss_sp guardWrite (.sigaltstackQuery :: evs ++ [.sigaltstackSet st])
      | (.panicked m, evs) =>
          .panicked m (.sigaltstackQuery :: evs)
    else
      .ok 0 guardWrite [.sigaltstackQuery]

/-- `drop_handler`: a no-op on the null handler; otherwise re-registers a
disabled alternate stack whose `ss_size` is `sigstack_size` (the macOS
`ENOMEM` workaround: not zero), then unmaps the `sigstack_size +
page_size` bytes starting one page below the stored pointer. -/
def drop_handler (data : Nat) (sigstack_size page_size : Nat) : List OsEvent :=
  if data ≠ 0 then
    [.sigaltstackSet { ss_sp := 0, ss_flags := SS_DISABLE, ss_size := sigstack_size },
     .munmapCall (data - page_size) (sigstack_size + page_size)]
  else []

/-- The operating systems distinguished by the `cfg!` checks of
`install_main_guard` and `current_guard`. -/
inductive TargetOs
  | linux
  | freebsd
  | openbsd
  | netbsd
  | macos
  | solaris
  | hurd
  | android
  | l4re
deriving DecidableEq, Repr

/-- The C environments (`target_env`) those checks distinguish. -/
inductive TargetEnv
  | gnu
  | musl
  | uclibc
  | otherEnv
deriving DecidableEq, Repr

/-- A compile-time platform configuration. -/
structure Platform where
  os : TargetOs
  env : TargetEnv
deriving DecidableEq, Repr

/-- The page-alignment step of `get_stack_start_aligned`: round `addr` up
to the next multiple of `page_size` (unchanged when already aligned). -/
def alignUp (addr page_size : Nat) : Nat :=
  let remainder := addr % page_size
  if remainder = 0 then addr else addr + page_size - remainder

/-- `get_stack_start_aligned`: the stack start reported by the platform
query (`none` when unavailable), aligned up to a page boundary. -/
def get_stack_start_aligned (page_size : Nat) (stackStart : Option Nat) : Option Nat :=
  stackStart.map (fun a => alignUp a page_size)

/-- Result of a guard resolver: `ok r` with the optional range it
returns, or a panic. -/
inductive GuardOutcome
  | ok (r : Option (Nat × Nat))
  | panicked (msg : String)
deriving DecidableEq, Repr

/-- `install_main_guard`: the main thread's guard resolver.  `stackStart`
is the address reported by `get_stack_start`; `freebsdPages` the
`security.bsd.stack_guard_page` sysctl value (default 1); `fixedMmapRes`
the address the manual-mapping branch's `MAP_FIXED` mmap returns (`none`
models `MAP_FAILED`); `mprotectOk` whether its `mprotect` succeeds. -/
def install_main_guard (plat : Platform) (page_size : Nat) (stackStart : Option Nat)
    (freebsdPages : Nat) (fixedMmapRes : Option Nat) (mprotectOk : Bool)
    (osErr : String) : GuardOutcome × List OsEvent :=
  if plat.os = .linux ∧ plat.env ≠ .musl then
    match get_stack_start_aligned page_size stackStart with
    | none => (.ok none, [])
    | some stackaddr => (.ok (some (stackaddr - page_size, stackaddr)), [])
  else if plat.os = .linux ∧ plat.env = .musl then
    (.ok none, [])
  else if plat.os = .freebsd then
    match get_stack_start_aligned page_size stackStart with
    | none => (.ok none, [])
    | some guardaddr =>
        (.ok (some (guardaddr, guardaddr + freebsdPages * page_size)), [])
  else if plat.os = .openbsd ∨ plat.os = .netbsd then
    match get_stack_start_aligned page_size stackStart with
    | none => (.ok none, [])
    | some stackaddr => (.ok (some (stackaddr - page_size, stackaddr)), [])
  else
    match get_stack_start_aligned page_size stackStart with
    | none => (.ok none, [])
    | some stackaddr =>
        match fixedMmapRes with
        | none =>
            (.panicked ("failed to allocate a guard page: " ++ osErr),
             [.mmapFixed stackaddr page_size .protReadWrite])
        | some result =>
            if result ≠ stackaddr then
              (.panicked ("failed to allocate a guard page: " ++ osErr),
               [.mmapFixed stackaddr page_size .protReadWrite])
            else if mprotectOk then
              (.ok (some (stackaddr, stackaddr + page_size)),
               [.mmapFixed stackaddr page_size .protReadWrite,
                .mprotectCall stackaddr page_size .protNone])
            else
              (.panicked ("failed to protect the guard page: " ++ osErr),
               [.mmapFixed stackaddr page_size .protReadWrite,
                .mprotectCall stackaddr page_size .protNone])

/-- `current_guard` (the `pthread_getattr_np` variant compiled on
android/freebsd/hurd/linux/netbsd/l4re): resolves the spawned thread's
guard range from the thread attributes.  `attrOk` is whether the
attribute query returned 0, `guardsizeRaw` the reported guard size, and
`stackaddr` the reported stack base address. -/
def current_guard (plat : Platform) (page_size : Nat) (attrOk : Bool)
    (guardsizeRaw : Nat) (stackaddr : Nat) : GuardOutcome :=
  if attrOk then
    if guardsizeRaw = 0 ∧ ¬(plat.os = .linux ∧ plat.env = .musl) then
      .panicked "there is no guard page"
    else
      let guardsize :=
        if guardsizeRaw = 0 then page_size else guardsizeRaw
      if plat.os = .freebsd ∨ plat.os = .netbsd ∨ plat.os = .hurd then
        .ok (some (stackaddr - guardsize, stackaddr))
      else if plat.os = .linux ∧ plat.env = .musl then
        .ok (some (stackaddr - guardsize, stackaddr))
      else if plat.os = .linux ∧ (plat.env = .gnu ∨ plat.env = .uclibc) then
        .ok (some (stackaddr - guardsize, stackaddr + guardsize))
      else
        .ok (some (stackaddr, stackaddr + guardsize))
  else .ok none

/-! ## Helper lemmas -/

theorem classifiesOverflow_signal_handler (signum s e a : Nat) (name : Option String) :
    classifiesOverflow (signal_handler signum (s, e) name a)
      = (decide (s ≤ a) && decide (a < e)) := by
  by_cases h1 : s ≤ a <;> by_cases h2 : a < e <;>
    simp [signal_handler, classifiesOverflow, h1, h2]

/-! ## Claims -/

/-- C1: the fault handler classifies the faulting address `a` as a stack
overflow if and only if `s ≤ a < e` for the stored guard range `(s, e)`
(unsigned comparison over raw addresses); in particular, for a nonempty
range, `s` and `e - 1` are classified as overflow and `e` is not. -/
theorem C1_classification_iff_in_range (s e a signum : Nat) (name : Option String) :
    (classifiesOverflow (signal_handler signum (s, e) name a) = true ↔ s ≤ a ∧ a < e)
    ∧ (s < e → classifiesOverflow (signal_handler signum (s, e) name s) = true)
    ∧ (s < e → classifiesOverflow (signal_handler signum (s, e) name (e - 1)) = true)
    ∧ classifiesOverflow (signal_handler signum (s, e) name e) = false := by
  refine ⟨?_, ?_, ?_, ?_⟩
  · rw [classifiesOverflow_signal_handler]; simp
  · intro h; rw [classifiesOverflow_signal_handler]; simp; omega
  · intro h; rw [classifiesOverflow_signal_handler]
    simp only [Bool.and_eq_true, decide_eq_true_eq]
    omega
  · rw [classifiesOverflow_signal_handler]; simp

theorem C1_classification_iff_in_range_witness :
    (classifiesOverflow (signal_handler 11 (4096, 8192) (some "main") 5000) = true ↔
        4096 ≤ 5000 ∧ 5000 < 8192)
    ∧ classifiesOverflow (signal_handler 11 (4096, 8192) (some "main") 4096) = true :=
  ⟨(C1_classification_iff_in_range 4096 8192 5000 11 (some "main")).1,
   (C1_classification_iff_in_range 4096 8192 5000 11 (some "main")).2.1 (by decide)⟩

/-- C2: whenever the faulting address lies inside the guard range, the
handler emits the diagnostic naming the current thread (or the
`"<unknown>"` placeholder) and aborts unconditionally; it never takes the
reset-and-return path. -/
theorem C2_overflow_aborts_with_thread_name (signum s e a : Nat) (name : Option String)
    (h1 : s ≤ a) (h2 : a < e) :
    signal_handler signum (s, e) name a
        = .overflowAbort (overflowMessage name) "stack overflow"
    ∧ overflowMessage name
        = "\nthread \x27" ++ name.getD "<unknown>" ++ "\x27 has overflowed its stack\n"
    ∧ ∀ sn, signal_handler signum (s, e) name a ≠ .resetToDefault sn := by
  refine ⟨?_, rfl, ?_⟩
  · simp [signal_handler, h1, h2]
  · intro sn; simp [signal_handler, h1, h2]

theorem C2_overflow_aborts_with_thread_name_witness :
    signal_handler 11 (4096, 8192) none 5000
      = .overflowAbort (overflowMessage none) "stack overflow" :=
  (C2_overflow_aborts_with_thread_name 11 4096 8192 5000 none (by decide) (by decide)).1

/-- C3: whenever the faulting address lies outside the guard range, the
handler resets the disposition of the delivered signal number to the
platform default and returns; it never aborts. -/
theorem C3_nonoverflow_resets_to_default (signum s e a : Nat) (name : Option String)
    (h : ¬(s ≤ a ∧ a < e)) :
    signal_handler signum (s, e) name a = .resetToDefault signum
    ∧ ∀ d m, signal_handler signum (s, e) name a ≠ .overflowAbort d m := by
  constructor
  · simp [signal_handler, h]
  · intro d m; simp [signal_handler, h]

theorem C3_nonoverflow_resets_to_default_witness :
    signal_handler 11 (4096, 8192) none 8192 = .resetToDefault 11 :=
  (C3_nonoverflow_resets_to_default 11 4096 8192 8192 none (by decide)).1

/-- C4: for each of SIGSEGV and SIGBUS, `init` installs the subsystem's
handler only when the current disposition is the platform default (never
overriding a pre-existing non-default handler); `NEED_ALTSTACK` ends up
set exactly when it was already set or the handler was installed on at
least one of the two signals; and running the installation loop a second
time changes nothing (idempotence). -/
theorem C4_init_install_only_default_idempotent (st : SigState) :
    ((init_signals st).segv = if st.segv = .dfl then .installed else st.segv)
    ∧ ((init_signals st).bus = if st.bus = .dfl then .installed else st.bus)
    ∧ ((init_signals st).needAltstack = true ↔
        (st.needAltstack = true ∨ st.segv = .dfl ∨ st.bus = .dfl))
    ∧ init_signals (init_signals st) = init_signals st := by
  obtain ⟨sg, bs, na⟩ := st
  cases sg <;> cases bs <;> cases na <;>
    simp [init_signals, installIfDefault]

/-- C5: when `NEED_ALTSTACK` is unset, `make_handler` returns the null
handler with an empty OS-call trace — in particular it performs no
memory-mapping call and writes nothing to the thread-local guard. -/
theorem C5_no_altstack_needed_returns_null (env : MakeHandlerEnv)
    (h : env.needAltstack = false) :
    make_handler env = .ok 0 none [] := by
  simp [make_handler, h]

theorem C5_no_altstack_needed_returns_null_witness :
    make_handler ⟨false, false, none, ⟨0, 0, 0⟩, 8192, 4096, none, true, ""⟩
      = .ok 0 none [] :=
  C5_no_altstack_needed_returns_null _ rfl

/-- C6: `get_stack` maps exactly `sigstack_size + page_size` bytes of
anonymous private read/write memory, protects the first page of the
mapping to no-access, and returns a `stack_t` whose pointer is the base
plus one page and whose size is `sigstack_size`; a failed `mmap` or
`mprotect` panics with a message carrying the OS error. -/
theorem C6_get_stack_mapping_and_failures (s p : Nat) (err : String) :
    (∀ base, get_stack s p (some base) true err
        = (.ok { ss_sp := base + p, ss_flags := 0, ss_size := s },
           [.mmapAnon (s + p) .protReadWrite, .mprotectCall base p .protNone]))
    ∧ (∀ mok, get_stack s p none mok err
        = (.panicked ("failed to allocate an alternative stack: " ++ err),
           [.mmapAnon (s + p) .protReadWrite]))
    ∧ (∀ base, get_stack s p (some base) false err
        = (.panicked ("failed to set up alternative stack guard page: " ++ err),
           [.mmapAnon (s + p) .protReadWrite, .mprotectCall base p .protNone])) :=
  ⟨fun _ => rfl, fun _ => rfl, fun _ => rfl⟩

/-- C7: for a non-null handle produced by `get_stack` (pointer `base + p`
for a mapping of `s + p` bytes at `base`), `drop_handler` first disables
the alternate-stack registration with `ss_flags = SS_DISABLE` and
`ss_size` set to the minimum signal-stack size `s` (not zero), then
unmaps exactly the original mapping: `s + p` bytes starting one page
below the stored pointer, i.e. at `base`. -/
theorem C7_drop_unmaps_original_mapping (s p base : Nat) (err : String)
    (hnz : base + p ≠ 0) :
    get_stack s p (some base) true err
        = (.ok { ss_sp := base + p, ss_flags := 0, ss_size := s },
           [.mmapAnon (s + p) .protReadWrite, .mprotectCall base p .protNone])
    ∧ drop_handler (base + p) s p
        = [.sigaltstackSet { ss_sp := 0, ss_flags := SS_DISABLE, ss_size := s },
           .munmapCall base (s + p)] := by
  refine ⟨rfl, ?_⟩
  simp [drop_handler, hnz, Nat.add_sub_cancel]

theorem C7_drop_unmaps_original_mapping_witness :
    drop_handler (65536 + 4096) 8192 4096
      = [.sigaltstackSet { ss_sp := 0, ss_flags := SS_DISABLE, ss_size := 8192 },
         .munmapCall 65536 (8192 + 4096)] :=
  (C7_drop_unmaps_original_mapping 8192 4096 65536 "" (by decide)).2

/-- C8: on linux with the gnu (or uclibc) C library — where the guard may
lie above or below the reported stack base depending on the library
version — `current_guard` returns the double-sided range
`[stackaddr - guardsize, stackaddr + guardsize)`, so both the address at
the stack base and the address immediately below it are classified as a
guard hit by the fault handler. -/
theorem C8_double_sided_guard_on_linux_gnu (envv : TargetEnv)
    (henv : envv = .gnu ∨ envv = .uclibc) (p gs sa : Nat)
    (hgs : 0 < gs) (hsa : gs ≤ sa) :
    current_guard ⟨.linux, envv⟩ p true gs sa = .ok (some (sa - gs, sa + gs))
    ∧ classifiesOverflow (signal_handler 11 (sa - gs, sa + gs) none sa) = true
    ∧ classifiesOverflow (signal_handler 11 (sa - gs, sa + gs) none (sa - 1)) = true := by
  have hne : gs ≠ 0 := Nat.pos_iff_ne_zero.mp hgs
  refine ⟨?_, ?_, ?_⟩
  · rcases henv with h | h <;> subst h <;> simp [current_guard, hne]
  · rw [classifiesOverflow_signal_handler]
    simp only [Bool.and_eq_true, decide_eq_true_eq]
    omega
  · rw [classifiesOverflow_signal_handler]
    simp only [Bool.and_eq_true, decide_eq_true_eq]
    omega

theorem C8_double_sided_guard_on_linux_gnu_witness :
    current_guard ⟨.linux, .gnu⟩ 4096 true 4096 8192 = .ok (some (4096, 12288))
    ∧ classifiesOverflow (signal_handler 11 (4096, 12288) none 8191) = true :=
  ⟨(C8_double_sided_guard_on_linux_gnu .gnu (Or.inl rfl) 4096 4096 8192
      (by decide) (by decide)).1,
   (C8_double_sided_guard_on_linux_gnu .gnu (Or.inl rfl) 4096 4096 8192
      (by decide) (by decide)).2.2⟩

/-- C9 (amended): on openbsd and netbsd the main-thread guard resolver
returns `[a - page_size, a)` for the page-aligned stack base `a` — the
same formula (and same result) as the kernel-auto-guard linux/gnu
variant; on freebsd, whose stack also has a built-in guard, the resolver
instead returns `[a, a + pages * page_size)`, at and above the base. -/
theorem C9_amended_builtin_guard_ranges (os : TargetOs)
    (hos : os = .openbsd ∨ os = .netbsd) (envv : TargetEnv)
    (p a pages : Nat) (fm : Option Nat) (mok : Bool) (err : String) :
    install_main_guard ⟨os, envv⟩ p (some a) pages fm mok err
        = (.ok (some (alignUp a p - p, alignUp a p)), [])
    ∧ (install_main_guard ⟨os, envv⟩ p (some a) pages fm mok err).fst
        = (install_main_guard ⟨.linux, .gnu⟩ p (some a) pages fm mok err).fst
    ∧ install_main_guard ⟨.freebsd, envv⟩ p (some a) pages fm mok err
        = (.ok (some (alignUp a p, alignUp a p + pages * p)), []) := by
  refine ⟨?_, ?_, ?_⟩
  · rcases hos with h | h <;> subst h <;>
      simp [install_main_guard, get_stack_start_aligned]
  · rcases hos with h | h <;> subst h <;>
      simp [install_main_guard, get_stack_start_aligned]
  · simp [install_main_guard, get_stack_start_aligned]

theorem C9_amended_builtin_guard_ranges_witness :
    install_main_guard ⟨.openbsd, .otherEnv⟩ 4096 (some 8192) 1 none true ""
      = (.ok (some (alignUp 8192 4096 - 4096, alignUp 8192 4096)), []) :=
  (C9_amended_builtin_guard_ranges .openbsd (Or.inl rfl) .otherEnv
    4096 8192 1 none true "").1

/-- C9 counterexample: freebsd's stack has a built-in guard, yet with
page size 4096 and page-aligned stack base 8192 (sysctl guard-page count
1) the resolver returns `[8192, 12288)` — at and above the base — not
`[8192 - 4096, 8192)` as the claim's formula requires for every platform
of the built-in-guard family. -/
theorem C9_counterexample_freebsd :
    (install_main_guard ⟨.freebsd, .otherEnv⟩ 4096 (some 8192) 1 none true "").fst
        = .ok (some (8192, 12288))
    ∧ (install_main_guard ⟨.freebsd, .otherEnv⟩ 4096 (some 8192) 1 none true "").fst
        ≠ .ok (some (8192 - 4096, 8192)) := by
  constructor <;> decide

/-- C10: when `NEED_ALTSTACK` is set but the queried registration of a
non-main thread does not report `SS_DISABLE` (the alternate stack is
already enabled), `make_handler` returns the null handler after only the
`sigaltstack` query — no mapping call and no change to the registered
alternate stack — and `drop_handler` on that null handle performs no OS
call at all. -/
theorem C10_already_enabled_returns_null (env : MakeHandlerEnv)
    (h0 : env.needAltstack = true) (h1 : env.mainThread = false)
    (h2 : env.queried.ss_flags.land SS_DISABLE = 0) :
    make_handler env
        = .ok 0 (some (env.currentGuard.getD (0, 0))) [.sigaltstackQuery]
    ∧ (∀ ev ∈ [OsEvent.sigaltstackQuery],
        ev.isMmap = false ∧ ∀ ss, ev ≠ .sigaltstackSet ss)
    ∧ drop_handler 0 env.sigstack_size env.page_size = [] := by
  refine ⟨?_, ?_, by simp [drop_handler]⟩
  · simp [make_handler, h0, h1, h2]
  · intro ev hev
    simp only [List.mem_singleton] at hev
    subst hev
    exact ⟨rfl, fun ss h => by cases h⟩

theorem C10_already_enabled_returns_null_witness :
    make_handler ⟨true, false, some (100, 200), ⟨5000, 0, 8192⟩, 8192, 4096, none, true, ""⟩
      = .ok 0 (some (100, 200)) [.sigaltstackQuery] :=
  (C10_already_enabled_returns_null _ rfl rfl (by decide)).1

end StackOverflow
